import Mathlib

/-!
# Verification of the Google Trends collection core

Shallow embedding of the acquisition-and-derivation engine of the
`google-trends` repository (`src/services/trends_collector.py` and
`src/models/core.py`), together with proofs of the specified properties.

Conventions of the embedding:
* Python floats are modelled as rationals (`ℚ`); all interest values are
  integers (`ℤ`), as produced by `int(row[keyword])` in the source.
* Python exceptions are modelled with `Except PyError`; a `try/except`
  block becomes an explicit `match` on the `Except` value.
* Wall-clock instants are rationals; `time.sleep` is modelled as exact
  (idealized timing semantics).
-/

/-- Errors that can flow through the collector.  `tooManyRequests` models
`pytrends.exceptions.TooManyRequestsError`, `responseError` models
`pytrends.exceptions.ResponseError`, `valueError` models the `ValueError`
raised by the validators in `models/core.py`, and `otherError` covers any
other exception. -/
inductive PyError where
  | tooManyRequests
  | responseError
  | valueError (msg : String)
  | otherError (msg : String)
  deriving DecidableEq, Repr

/-- One sample of an interest-over-time series: the dict
`{'date': ..., 'value': ...}` built in `_get_keyword_interest` /
`get_keyword_details`.  Dates are modelled as integers (an instant). -/
structure InterestPoint where
  date : ℤ
  value : ℤ
  deriving DecidableEq, Repr

/-- Build a series from plain values (dates are irrelevant to the
derivation algorithms). -/
def mkSeries (vs : List ℤ) : List InterestPoint :=
  vs.map (fun v => ⟨0, v⟩)

/-- Arithmetic mean of a list of integers, as a rational
(`sum(values) / len(values)` in the source). -/
def listMeanQ (l : List ℤ) : ℚ :=
  (l.sum : ℚ) / (l.length : ℚ)

/-- Python's `round(x, 2)`: round to two decimal places.  (At non-tie
points this agrees with Python's float rounding; the series values being
integers, the quotients that reach it are generic rationals.) -/
def round2 (q : ℚ) : ℚ :=
  ((round (q * 100) : ℤ) : ℚ) / 100

/-- Python's `int(x)` on a float: truncation toward zero. -/
def pyInt (q : ℚ) : ℤ :=
  if q < 0 then ⌈q⌉ else ⌊q⌋

/-- `[item['value'] for item in interest_data[-4:]]`: the values of the
last four points (fewer when the series is shorter).  The Python slice
`[-4:]` clamps at the front, which truncated `Nat` subtraction mirrors. -/
def recentValues (s : List InterestPoint) : List ℤ :=
  (s.drop (s.length - 4)).map (·.value)

/-- `[item['value'] for item in interest_data[-8:-4]]`: the values of the
up-to-four points immediately preceding the recent window.  The Python
slice `[-8:-4]` is `s[max(len-8,0) : max(len-4,0)]`, which truncated
`Nat` subtraction mirrors. -/
def previousValues (s : List InterestPoint) : List ℤ :=
  ((s.take (s.length - 4)).drop (s.length - 8)).map (·.value)

/-- `TrendsCollector._calculate_growth_rate`: growth rate from an
interest-over-time series.  (The `try/except` wrapper in the source only
guards against runtime exceptions that the pure model cannot raise.) -/
def calculate_growth_rate (interest_data : List InterestPoint) : ℚ :=
  if interest_data.length < 2 then 0
  else
    let recent_values := recentValues interest_data
    let previous_values := previousValues interest_data
    if recent_values = [] ∨ previous_values = [] then 0
    else
      let recent_avg := listMeanQ recent_values
      let previous_avg := listMeanQ previous_values
      if previous_avg = 0 then
        if recent_avg > 0 then 100 else 0
      else
        round2 ((recent_avg - previous_avg) / previous_avg * 100)

/-- `[item['value'] for item in interest_data if item['value'] > 0]`:
the strictly positive samples of a series. -/
def positiveValues (interest_data : List InterestPoint) : List ℤ :=
  (interest_data.filter (fun item => 0 < item.value)).map (·.value)

/-- `TrendsCollector._estimate_search_volume`: estimated search volume
from an interest-over-time series.  `values` keeps the strictly positive
samples; the estimate is the truncated product of their mean with the
scale factor 10000, floored at 100.  (The `except` branch returning 1000
is unreachable in the pure model.) -/
def estimate_search_volume (interest_data : List InterestPoint) : ℤ :=
  if interest_data = [] then 0
  else
    let values := positiveValues interest_data
    if values = [] then 0
    else
      let avg_interest := listMeanQ values
      let estimated_monthly := pyInt (avg_interest * 10000)
      max estimated_monthly 100

/-- The dedupe step of `get_related_keywords` (lines 271-277): union the
two query lists, drop exact duplicates (`list(set(...))`, whose order is
unspecified; we pick `List.dedup` as the deterministic ordering), remove
the base keyword, and truncate to 20. -/
def dedupe_related (top rising : List String) (keyword : String) : List String :=
  let related := (top ++ rising).dedup
  let related := if keyword ∈ related then related.erase keyword else related
  related.take 20

/-- Python's `str.strip()`: drop leading and trailing whitespace.
(Written over the character list so that it evaluates by kernel
reduction.) -/
def pyStrip (s : String) : String :=
  ⟨((s.data.dropWhile Char.isWhitespace).reverse.dropWhile Char.isWhitespace).reverse⟩

/-- Python's `str.upper()` (over the ASCII range relevant here). -/
def pyUpper (s : String) : String :=
  ⟨s.data.map Char.toUpper⟩

/-- `models.core.validate_keyword`: validate and clean keyword input.
(The `isinstance` check is satisfied by typing; `not keyword` is the
empty-string test.)  Forbidden characters are `<`, `>`, `"` (code 34) and
the apostrophe (code 39), matching the regex at line 43 of `core.py`. -/
def validate_keyword (keyword : String) : Except PyError String :=
  if keyword = "" then
    .error (.valueError "Keyword must be a non-empty string")
  else
    let cleaned := pyStrip keyword
    if cleaned = "" then
      .error (.valueError "Keyword cannot be empty or whitespace only")
    else if cleaned.length > 100 then
      .error (.valueError "Keyword cannot exceed 100 characters")
    else if cleaned.data.any (fun c => c = '<' || c = '>' || c.toNat = 34 || c.toNat = 39) then
      .error (.valueError "Keyword contains invalid characters")
    else
      .ok cleaned

/-- `models.core.validate_region`: uppercase, strip, then require an
exact match of the regex `^[A-Z]{2}$`. -/
def validate_region (region : String) : Except PyError String :=
  if region = "" then
    .error (.valueError "Region must be a non-empty string")
  else
    let r := pyStrip (pyUpper region)
    if r.length = 2 && r.data.all (fun c => 65 ≤ c.toNat && c.toNat ≤ 90) then
      .ok r
    else
      .error (.valueError "Region must be a valid 2-letter country code")

/-- `models.core.validate_search_volume`. -/
def validate_search_volume (volume : ℤ) : Except PyError ℤ :=
  if volume < 0 then
    .error (.valueError "Search volume cannot be negative")
  else if volume > 1000000000 then
    .error (.valueError "Search volume exceeds maximum allowed value")
  else
    .ok volume

/-- `models.core.validate_growth_rate`. -/
def validate_growth_rate (rate : ℚ) : Except PyError ℚ :=
  if rate < -100 then
    .error (.valueError "Growth rate cannot be less than -100%")
  else if rate > 10000 then
    .error (.valueError "Growth rate exceeds maximum allowed value")
  else
    .ok rate

/-- The values of `models.core.TrendCategory`. -/
def trendCategoryValues : List String :=
  ["all", "business", "entertainment", "health", "science_tech", "sports", "top_stories"]

/-- `models.core.TrendKeyword` after `__post_init__` has run. -/
structure TrendKeyword where
  keyword : String
  search_volume : ℤ
  growth_rate : ℚ
  region : String
  category : String
  timestamp : ℤ
  related_keywords : List String
  deriving DecidableEq, Repr

/-- Construction of a `TrendKeyword`, i.e. the dataclass constructor
followed by `TrendKeyword.__post_init__`: each field is validated in
order; invalid related keywords are silently dropped (`continue` in the
source).  The `isinstance` checks on `timestamp` and `related_keywords`
are satisfied by typing. -/
def mkTrendKeyword (keyword : String) (search_volume : ℤ) (growth_rate : ℚ)
    (region : String) (category : String) (timestamp : ℤ)
    (related_keywords : List String) : Except PyError TrendKeyword :=
  match validate_keyword keyword with
  | .error e => .error e
  | .ok kw =>
    match validate_search_volume search_volume with
    | .error e => .error e
    | .ok sv =>
      match validate_growth_rate growth_rate with
      | .error e => .error e
      | .ok gr =>
        match validate_region region with
        | .error e => .error e
        | .ok rg =>
          if category ∈ trendCategoryValues then
            .ok { keyword := kw, search_volume := sv, growth_rate := gr,
                  region := rg, category := category, timestamp := timestamp,
                  related_keywords :=
                    related_keywords.filterMap (fun k => (validate_keyword k).toOption) }
          else
            .error (.valueError "Invalid category")

/-- `models.core.KeywordDetails` after `__post_init__` has run. -/
structure KeywordDetails where
  keyword : String
  search_volume : ℤ
  interest_over_time : List InterestPoint
  related_topics : List String
  related_queries : List String
  geo_distribution : List (String × ℤ)
  timestamp : ℤ
  deriving DecidableEq, Repr

/-- Construction of a `KeywordDetails` (dataclass constructor followed by
`KeywordDetails.__post_init__`): keyword and volume are validated; the
remaining `__post_init__` checks (`isinstance` tests, presence of the
`date`/`value` keys) are satisfied by typing. -/
def mkKeywordDetails (keyword : String) (search_volume : ℤ)
    (interest_over_time : List InterestPoint)
    (related_topics related_queries : List String)
    (geo_distribution : List (String × ℤ)) (timestamp : ℤ) :
    Except PyError KeywordDetails :=
  match validate_keyword keyword with
  | .error e => .error e
  | .ok kw =>
    match validate_search_volume search_volume with
    | .error e => .error e
    | .ok sv =>
      .ok { keyword := kw, search_volume := sv,
            interest_over_time := interest_over_time,
            related_topics := related_topics,
            related_queries := related_queries,
            geo_distribution := geo_distribution, timestamp := timestamp }

/-- `TrendsCollector._handle_request_error`: classify a failure, wait if
it is a rate-limit signal, and re-raise.  Returns the sleep duration in
seconds and the outcome; the outcome is always a raised error, mirroring
the `raise error` in each branch of the `if/elif/else` chain. -/
def handle_request_error (error : PyError) : Nat × Except PyError Unit :=
  if error = .tooManyRequests then
    (60, .error error)
  else if error = .responseError then
    (0, .error error)
  else
    (0, .error error)

/-- The mutable gate state of a `TrendsCollector`:
`self._last_request_time`. -/
structure GateState where
  last_request_time : ℚ
  deriving DecidableEq, Repr

/-- `TrendsCollector._rate_limit` under idealized timing: `now` is the
reading of `time.time()` at entry; `time.sleep` is exact, so the second
reading of `time.time()` (line 72 of the source) is `now + sleep_time`
when a sleep happened and `now` otherwise.  Returns the completion time
(the instant the call returns, recorded as the new last-request time)
and the updated state. -/
def rate_limit (min_request_interval : ℚ) (st : GateState) (now : ℚ) :
    ℚ × GateState :=
  let time_since_last := now - st.last_request_time
  if time_since_last < min_request_interval then
    let sleep_time := min_request_interval - time_since_last
    (now + sleep_time, ⟨now + sleep_time⟩)
  else
    (now, ⟨now⟩)

/-- The external trend-data provider (pytrends), as seen by the
collector: each capability may fail (`Except`) or return partial/empty
data.  `client_init` models `_get_pytrends_client` (client construction
may raise); `trending_searches` yields `none` for a `None` dataframe and
the raw first-column strings otherwise (an empty list for an empty
dataframe); `interest_over_time` yields the extracted `(date, value)`
rows, a missing value (`NaN`) being `none` (an empty list covers an empty
dataframe or a missing keyword column); `related_topics` and
`related_queries` yield `none` when the keyword is absent from the result
dict, and each inner `Option` is the possibly-`None` dataframe;
`interest_by_region` yields the keyword's column as `(country, value)`
rows. -/
structure Provider where
  client_init : Except PyError Unit
  trending_searches : String → Except PyError (Option (List String))
  build_payload : String → String → Except PyError Unit
  interest_over_time : String → Except PyError (List (ℤ × Option ℤ))
  related_topics : String → Except PyError (Option (Option (List String)))
  related_queries : String → Except PyError (Option (Option (List String) × Option (List String)))
  interest_by_region : String → Except PyError (List (String × ℤ))

/-- The row-to-dict extraction shared by `_get_keyword_interest` and
`get_keyword_details`: `int(row[keyword]) if not pd.isna(row[keyword])
else 0`. -/
def interest_rows_to_points (rows : List (ℤ × Option ℤ)) : List InterestPoint :=
  rows.map (fun r => ⟨r.1, r.2.getD 0⟩)

/-- `TrendsCollector._get_keyword_interest`: fetch the interest series
for a keyword; its own `try/except` degrades any failure (client
creation, payload build, fetch) to the empty list. -/
def get_keyword_interest (p : Provider) (keyword timeframe : String) :
    List InterestPoint :=
  let attempt : Except PyError (List (ℤ × Option ℤ)) :=
    match p.client_init with
    | .error e => .error e
    | .ok _ =>
      match p.build_payload keyword timeframe with
      | .error e => .error e
      | .ok _ => p.interest_over_time keyword
  match attempt with
  | .error _ => []
  | .ok rows => interest_rows_to_points rows

/-- `TrendsCollector._get_related_keywords_simple`: unconditionally
returns the empty list ("return empty for now to avoid rate limiting"). -/
def get_related_keywords_simple (keyword : String) : List String :=
  []

/-- One iteration of the `get_trending_keywords` loop over
`trending_searches.head(20)`: strip the raw entry, skip it when blank
(`continue`), derive the metrics, and build the `TrendKeyword`; a
validation failure inside the inner `try` skips the entry (`continue`),
so the iteration yields an `Option`. -/
def process_trending_entry (p : Provider) (region timeframe : String)
    (now : ℤ) (row : String) : Option TrendKeyword :=
  let keyword_text := pyStrip row
  if keyword_text = "" then none
  else
    let interest_data := get_keyword_interest p keyword_text timeframe
    let growth_rate := calculate_growth_rate interest_data
    let search_volume := estimate_search_volume interest_data
    let related_keywords := get_related_keywords_simple keyword_text
    (mkTrendKeyword keyword_text search_volume growth_rate (pyUpper region)
      "all" now related_keywords).toOption

/-- The body of `TrendsCollector.get_trending_keywords` (the outer `try`
block): fetch the raw trending entries, return `[]` when the dataframe is
`None` or empty, else process the first 20 entries. -/
def get_trending_keywords_body (p : Provider) (region timeframe : String)
    (now : ℤ) : Except PyError (List TrendKeyword) :=
  match p.client_init with
  | .error e => .error e
  | .ok _ =>
    match p.trending_searches region with
    | .error e => .error e
    | .ok none => .ok []
    | .ok (some rows) =>
      if rows = [] then .ok []
      else .ok ((rows.take 20).filterMap (process_trending_entry p region timeframe now))

/-- `TrendsCollector.get_trending_keywords`: the body wrapped in the
outer `except` handler, which runs `_handle_request_error` inside a
nested `try/except Exception: pass` and then returns `[]`. -/
def get_trending_keywords (p : Provider) (region timeframe : String)
    (now : ℤ) : Except PyError (List TrendKeyword) :=
  match get_trending_keywords_body p region timeframe now with
  | .ok keywords => .ok keywords
  | .error e =>
    let _classified := handle_request_error e
    .ok []

/-- The body of `TrendsCollector.get_related_keywords` (the outer `try`
block): build the payload, fetch related queries, concatenate the first
15 top and first 10 rising queries, then dedupe/exclude/truncate. -/
def get_related_keywords_body (p : Provider) (keyword : String) :
    Except PyError (List String) :=
  match p.client_init with
  | .error e => .error e
  | .ok _ =>
    match p.build_payload keyword "today 12-m" with
    | .error e => .error e
    | .ok _ =>
      match p.related_queries keyword with
      | .error e => .error e
      | .ok res =>
        let top := match res with
          | some (some qs, _) => qs.take 15
          | _ => []
        let rising := match res with
          | some (_, some qs) => qs.take 10
          | _ => []
        .ok (dedupe_related top rising keyword)

/-- `TrendsCollector.get_related_keywords`: the body wrapped in the outer
`except` handler (classify inside a nested `try/except: pass`, then
return `[]`). -/
def get_related_keywords (p : Provider) (keyword : String) :
    Except PyError (List String) :=
  match get_related_keywords_body p keyword with
  | .ok related => .ok related
  | .error e =>
    let _classified := handle_request_error e
    .ok []

/-- The body of `TrendsCollector.get_keyword_details` (the outer `try`
block): build the payload, fetch the interest series, related topics
(first 10), related queries (first 10 of `top`), the geographic
distribution (sorted descending by value, first 10, strictly positive
entries kept), estimate the volume, and build the `KeywordDetails`. -/
def get_keyword_details_body (p : Provider) (keyword : String) (now : ℤ) :
    Except PyError KeywordDetails :=
  match p.client_init with
  | .error e => .error e
  | .ok _ =>
    match p.build_payload keyword "today 12-m" with
    | .error e => .error e
    | .ok _ =>
      match p.interest_over_time keyword with
      | .error e => .error e
      | .ok rows =>
        let interest := interest_rows_to_points rows
        match p.related_topics keyword with
        | .error e => .error e
        | .ok topicsRes =>
          let related_topics := match topicsRes with
            | some (some ts) => ts.take 10
            | _ => []
          match p.related_queries keyword with
          | .error e => .error e
          | .ok queriesRes =>
            let related_queries := match queriesRes with
              | some (some qs, _) => qs.take 10
              | _ => []
            match p.interest_by_region keyword with
            | .error e => .error e
            | .ok geoRows =>
              let top_geo := (geoRows.insertionSort (fun a b => b.2 ≤ a.2)).take 10
              let geo_distribution := top_geo.filter (fun c => 0 < c.2)
              let search_volume := estimate_search_volume interest
              mkKeywordDetails keyword search_volume interest related_topics
                related_queries geo_distribution now

/-- `TrendsCollector.get_keyword_details`: the body wrapped in the outer
`except` handler, which calls `_handle_request_error` (always re-raising)
followed by a bare `raise` (unreachable, modelled as re-raising the
original error). -/
def get_keyword_details (p : Provider) (keyword : String) (now : ℤ) :
    Except PyError KeywordDetails :=
  match get_keyword_details_body p keyword now with
  | .ok details => .ok details
  | .error e =>
    match (handle_request_error e).2 with
    | .error e2 => .error e2
    | .ok _ => .error e

/-- The default of `self._min_request_interval` (line 40 of the
collector). -/
def default_min_request_interval : ℚ := 1

/-- The validity predicate of C8 on a stored keyword string: non-empty,
at most 100 characters, and free of the characters `<`, `>`, `"`
(code 34) and the apostrophe (code 39). -/
def isValidKeyword (s : String) : Bool :=
  s != "" && s.length ≤ 100 &&
    !(s.data.any (fun c => c = '<' || c = '>' || c.toNat = 34 || c.toNat = 39))

/-- The validity predicate of C8 on a stored region string: exactly two
uppercase ASCII letters. -/
def isValidRegion (s : String) : Bool :=
  s.length == 2 && s.data.all (fun c => 65 ≤ c.toNat && c.toNat ≤ 90)

/-- A provider whose every capability fails (used to exercise the error
paths on a concrete input). -/
def failingProvider : Provider where
  client_init := .error .tooManyRequests
  trending_searches := fun _ => .error .tooManyRequests
  build_payload := fun _ _ => .error .tooManyRequests
  interest_over_time := fun _ => .error .tooManyRequests
  related_topics := fun _ => .error .tooManyRequests
  related_queries := fun _ => .error .tooManyRequests
  interest_by_region := fun _ => .error .tooManyRequests

/-- A provider returning one trending keyword and empty auxiliary data
(used to exercise the success paths on a concrete input). -/
def okProvider : Provider where
  client_init := .ok ()
  trending_searches := fun _ => .ok (some ["bitcoin"])
  build_payload := fun _ _ => .ok ()
  interest_over_time := fun _ => .ok []
  related_topics := fun _ => .ok none
  related_queries := fun _ => .ok none
  interest_by_region := fun _ => .ok []

/-- The record that `okProvider`'s single trending entry produces. -/
def exampleTrendingResult : TrendKeyword :=
  { keyword := "bitcoin", search_volume := 0, growth_rate := 0,
    region := "US", category := "all", timestamp := 0,
    related_keywords := [] }

/-- A successfully constructed record with a mixed related-keyword list
(the invalid entry is dropped during construction). -/
def exampleTrendKeyword : TrendKeyword :=
  { keyword := "bitcoin", search_volume := 0, growth_rate := 0,
    region := "US", category := "all", timestamp := 0,
    related_keywords := ["crypto"] }

/-! ## Helper lemmas -/

lemma recentValues_ne_nil {s : List InterestPoint} (h : 2 ≤ s.length) :
    recentValues s ≠ [] := by
  rw [← List.length_pos]
  simp only [recentValues, List.length_map, List.length_drop]
  omega

lemma except_toOption_eq_some {ε α : Type} {e : Except ε α} {x : α}
    (h : e.toOption = some x) : e = .ok x := by
  cases e with
  | ok a => simp only [Except.toOption, Option.some.injEq] at h; rw [h]
  | error err => simp [Except.toOption] at h

lemma handle_request_error_raises (error : PyError) :
    (handle_request_error error).2 = .error error := by
  simp only [handle_request_error]
  split_ifs <;> rfl

lemma validate_keyword_ok_valid {s c : String}
    (h : validate_keyword s = .ok c) : isValidKeyword c = true := by
  simp only [validate_keyword] at h
  split at h
  · exact Except.noConfusion h
  · split at h
    · exact Except.noConfusion h
    · split at h
      · exact Except.noConfusion h
      · split at h
        · exact Except.noConfusion h
        · injection h with hc
          subst hc
          simp_all [isValidKeyword]

lemma validate_region_ok_valid {s c : String}
    (h : validate_region s = .ok c) : isValidRegion c = true := by
  simp only [validate_region] at h
  split at h
  · exact Except.noConfusion h
  · split at h
    · injection h with hc
      subst hc
      simp_all [isValidRegion]
    · exact Except.noConfusion h

lemma validate_search_volume_ok {v sv : ℤ}
    (h : validate_search_volume v = .ok sv) : 0 ≤ sv := by
  unfold validate_search_volume at h
  split at h
  · exact Except.noConfusion h
  · split at h
    · exact Except.noConfusion h
    · injection h with hv
      subst hv
      omega

lemma validate_growth_rate_ok {r gr : ℚ}
    (h : validate_growth_rate r = .ok gr) : -100 ≤ gr := by
  unfold validate_growth_rate at h
  split at h
  · exact Except.noConfusion h
  · split at h
    · exact Except.noConfusion h
    · injection h with hr
      subst hr
      linarith

lemma mkTrendKeyword_related_nil {keyword : String} {search_volume : ℤ}
    {growth_rate : ℚ} {region category : String} {timestamp : ℤ}
    {tk : TrendKeyword}
    (h : mkTrendKeyword keyword search_volume growth_rate region category
      timestamp [] = .ok tk) : tk.related_keywords = [] := by
  unfold mkTrendKeyword at h
  split at h
  · exact Except.noConfusion h
  · split at h
    · exact Except.noConfusion h
    · split at h
      · exact Except.noConfusion h
      · split at h
        · exact Except.noConfusion h
        · split at h
          · injection h with htk
            rw [← htk]
            rfl
          · exact Except.noConfusion h

lemma process_trending_entry_related_nil {p : Provider}
    {region timeframe : String} {now : ℤ} {row : String} {k : TrendKeyword}
    (h : process_trending_entry p region timeframe now row = some k) :
    k.related_keywords = [] := by
  simp only [process_trending_entry] at h
  split at h
  · exact Option.noConfusion h
  · exact mkTrendKeyword_related_nil (except_toOption_eq_some h)

lemma get_trending_keywords_body_length_le (p : Provider)
    (region timeframe : String) (now : ℤ) (ks : List TrendKeyword)
    (h : get_trending_keywords_body p region timeframe now = .ok ks) :
    ks.length ≤ 20 := by
  unfold get_trending_keywords_body at h
  split at h
  · exact Except.noConfusion h
  · split at h
    · exact Except.noConfusion h
    · injection h with h2
      rw [← h2]
      simp
    · split at h
      · injection h with h2
        rw [← h2]
        simp
      · injection h with h2
        rw [← h2]
        calc (List.filterMap _ (List.take 20 _)).length
            ≤ (List.take 20 _).length := List.length_filterMap_le _ _
          _ ≤ 20 := by rw [List.length_take]; exact min_le_left _ _

lemma dedupe_related_nodup (top rising : List String) (keyword : String) :
    (dedupe_related top rising keyword).Nodup := by
  simp only [dedupe_related]
  apply List.Sublist.nodup (List.take_sublist _ _)
  by_cases h : keyword ∈ (top ++ rising).dedup
  · rw [if_pos h]
    exact List.Sublist.nodup (List.erase_sublist _ _) (List.nodup_dedup _)
  · rw [if_neg h]
    exact List.nodup_dedup _

lemma dedupe_related_not_mem (top rising : List String) (keyword : String) :
    keyword ∉ dedupe_related top rising keyword := by
  simp only [dedupe_related]
  intro hmem
  have hmem2 := (List.take_sublist 20 _).subset hmem
  by_cases h : keyword ∈ (top ++ rising).dedup
  · rw [if_pos h] at hmem2
    exact (List.nodup_dedup (top ++ rising)).not_mem_erase hmem2
  · rw [if_neg h] at hmem2
    exact h hmem2

lemma dedupe_related_length_le (top rising : List String) (keyword : String) :
    (dedupe_related top rising keyword).length ≤ 20 := by
  simp only [dedupe_related]
  rw [List.length_take]
  exact min_le_left _ _

/-! ## Claim theorems -/

/-- C1: `_calculate_growth_rate` returns 0 on series of fewer than 2
points; with the recent window the last 4 points and the previous window
the up-to-4 points immediately preceding them (shorter windows used
as-is), it returns 0 when the previous window is empty, 100 when the
previous mean is 0 and the recent mean positive, 0 when both means are 0,
and otherwise `((recent_avg - previous_avg) / previous_avg) * 100`
rounded to 2 decimal places; on [40,45,50,55,60,65,70,75] it returns
42.11. -/
theorem calculate_growth_rate_spec :
    (∀ s : List InterestPoint, s.length < 2 → calculate_growth_rate s = 0) ∧
    (∀ s : List InterestPoint, 2 ≤ s.length → previousValues s = [] →
      calculate_growth_rate s = 0) ∧
    (∀ s : List InterestPoint, 2 ≤ s.length → previousValues s ≠ [] →
      listMeanQ (previousValues s) = 0 → 0 < listMeanQ (recentValues s) →
      calculate_growth_rate s = 100) ∧
    (∀ s : List InterestPoint, 2 ≤ s.length → previousValues s ≠ [] →
      listMeanQ (previousValues s) = 0 → listMeanQ (recentValues s) = 0 →
      calculate_growth_rate s = 0) ∧
    (∀ s : List InterestPoint, 2 ≤ s.length → previousValues s ≠ [] →
      listMeanQ (previousValues s) ≠ 0 →
      calculate_growth_rate s =
        round2 ((listMeanQ (recentValues s) - listMeanQ (previousValues s)) /
          listMeanQ (previousValues s) * 100)) ∧
    calculate_growth_rate (mkSeries [40, 45, 50, 55, 60, 65, 70, 75]) = 4211 / 100 := by
  refine ⟨?_, ?_, ?_, ?_, ?_, ?_⟩
  · intro s h
    simp only [calculate_growth_rate]
    rw [if_pos h]
  · intro s h hprev
    simp only [calculate_growth_rate]
    rw [if_neg (by omega), if_pos (Or.inr hprev)]
  · intro s h hprev hpm hrm
    simp only [calculate_growth_rate]
    rw [if_neg (by omega), if_neg (by simp [recentValues_ne_nil h, hprev]),
      if_pos hpm, if_pos hrm]
  · intro s h hprev hpm hrm
    simp only [calculate_growth_rate]
    rw [if_neg (by omega), if_neg (by simp [recentValues_ne_nil h, hprev]),
      if_pos hpm, if_neg (by rw [hrm]; exact lt_irrefl 0)]
  · intro s h hprev hpm
    simp only [calculate_growth_rate]
    rw [if_neg (by omega), if_neg (by simp [recentValues_ne_nil h, hprev]), if_neg hpm]
  · norm_num [calculate_growth_rate, recentValues, previousValues, listMeanQ,
      round2, mkSeries, round_eq]
    try decide

/-- Witness for C1: the five clauses instantiated on concrete series. -/
theorem calculate_growth_rate_spec_witness :
    calculate_growth_rate (mkSeries [5]) = 0 ∧
    calculate_growth_rate (mkSeries [10, 20]) = 0 ∧
    calculate_growth_rate (mkSeries [0, 0, 0, 0, 0, 1, 1, 1, 1]) = 100 ∧
    calculate_growth_rate (mkSeries [0, 0, 0, 0, 0, 0, 0, 0]) = 0 ∧
    calculate_growth_rate (mkSeries [40, 45, 50, 55, 60, 65, 70, 75]) =
      round2 ((listMeanQ (recentValues (mkSeries [40, 45, 50, 55, 60, 65, 70, 75])) -
        listMeanQ (previousValues (mkSeries [40, 45, 50, 55, 60, 65, 70, 75]))) /
        listMeanQ (previousValues (mkSeries [40, 45, 50, 55, 60, 65, 70, 75])) * 100) :=
  ⟨calculate_growth_rate_spec.1 (mkSeries [5]) (by decide),
   calculate_growth_rate_spec.2.1 (mkSeries [10, 20]) (by decide) (by decide),
   calculate_growth_rate_spec.2.2.1 (mkSeries [0, 0, 0, 0, 0, 1, 1, 1, 1]) (by decide)
     (by decide) (by norm_num [listMeanQ, previousValues, mkSeries])
     (by norm_num [listMeanQ, recentValues, mkSeries]),
   calculate_growth_rate_spec.2.2.2.1 (mkSeries [0, 0, 0, 0, 0, 0, 0, 0]) (by decide)
     (by decide) (by norm_num [listMeanQ, previousValues, mkSeries])
     (by norm_num [listMeanQ, recentValues, mkSeries]),
   calculate_growth_rate_spec.2.2.2.2.1 (mkSeries [40, 45, 50, 55, 60, 65, 70, 75])
     (by decide) (by decide) (by norm_num [listMeanQ, previousValues, mkSeries])⟩

/-- C2: `_estimate_search_volume` discards non-positive samples; with no
positive sample left it returns 0, otherwise the truncated mean of the
positive samples times 10000, floored at 100; concrete values on [],
[50,60,70], [1] and [0,0]. -/
theorem estimate_search_volume_spec :
    (∀ s : List InterestPoint, positiveValues s = [] → estimate_search_volume s = 0) ∧
    (∀ s : List InterestPoint, positiveValues s ≠ [] →
      estimate_search_volume s = max (pyInt (listMeanQ (positiveValues s) * 10000)) 100) ∧
    (∀ s : List InterestPoint, positiveValues s ≠ [] → 100 ≤ estimate_search_volume s) ∧
    estimate_search_volume (mkSeries []) = 0 ∧
    estimate_search_volume (mkSeries [50, 60, 70]) = 600000 ∧
    100 ≤ estimate_search_volume (mkSeries [1]) ∧
    estimate_search_volume (mkSeries [0, 0]) = 0 := by
  have hmain : ∀ s : List InterestPoint, positiveValues s ≠ [] →
      estimate_search_volume s = max (pyInt (listMeanQ (positiveValues s) * 10000)) 100 := by
    intro s hpos
    have hne : s ≠ [] := by
      intro hnil
      exact hpos (by simp [hnil, positiveValues])
    simp only [estimate_search_volume]
    rw [if_neg hne, if_neg hpos]
  refine ⟨?_, hmain, ?_, ?_, ?_, ?_, ?_⟩
  · intro s hpos
    simp only [estimate_search_volume]
    by_cases hne : s = []
    · rw [if_pos hne]
    · rw [if_neg hne, if_pos hpos]
  · intro s hpos
    rw [hmain s hpos]
    exact le_max_right _ _
  · decide
  · norm_num [estimate_search_volume, positiveValues, listMeanQ, pyInt, mkSeries]
    try decide
  · norm_num [estimate_search_volume, positiveValues, listMeanQ, pyInt, mkSeries]
    try decide
  · decide

/-- Witness for C2: the universal clauses instantiated on concrete
series. -/
theorem estimate_search_volume_spec_witness :
    estimate_search_volume (mkSeries [0, 5]) =
      max (pyInt (listMeanQ (positiveValues (mkSeries [0, 5])) * 10000)) 100 ∧
    estimate_search_volume (mkSeries [0, 0]) = 0 ∧
    100 ≤ estimate_search_volume (mkSeries [1]) :=
  ⟨estimate_search_volume_spec.2.1 (mkSeries [0, 5]) (by decide),
   estimate_search_volume_spec.1 (mkSeries [0, 0]) (by decide),
   estimate_search_volume_spec.2.2.1 (mkSeries [1]) (by decide)⟩

/-- C3: `get_trending_keywords` and `get_related_keywords` never
propagate an exception to the caller: every provider failure (or failure
of any later step of the body) degrades to the empty list. -/
theorem batch_operations_never_raise (p : Provider)
    (region timeframe keyword : String) (now : ℤ) :
    (∀ e, get_trending_keywords p region timeframe now ≠ .error e) ∧
    (∀ e, get_related_keywords p keyword ≠ .error e) ∧
    (∀ e, get_trending_keywords_body p region timeframe now = .error e →
      get_trending_keywords p region timeframe now = .ok []) ∧
    (∀ e, get_related_keywords_body p keyword = .error e →
      get_related_keywords p keyword = .ok []) := by
  refine ⟨?_, ?_, ?_, ?_⟩
  · intro e
    simp only [get_trending_keywords]
    cases get_trending_keywords_body p region timeframe now <;> simp
  · intro e
    simp only [get_related_keywords]
    cases get_related_keywords_body p keyword <;> simp
  · intro e he
    simp only [get_trending_keywords, he]
  · intro e he
    simp only [get_related_keywords, he]

/-- Witness for C3: the failing provider yields empty results. -/
theorem batch_operations_never_raise_witness :
    get_trending_keywords failingProvider "US" "today" 0 = .ok [] ∧
    get_related_keywords failingProvider "bitcoin" = .ok [] :=
  ⟨(batch_operations_never_raise failingProvider "US" "today" "bitcoin" 0).2.2.1
      .tooManyRequests rfl,
   (batch_operations_never_raise failingProvider "US" "today" "bitcoin" 0).2.2.2
      .tooManyRequests rfl⟩

/-- C4: every error raised during `get_keyword_details` is re-raised to
the caller unchanged after classification, and a successful result can
only come from a fully successful body — the operation never degrades to
a fallback value. -/
theorem get_keyword_details_error_spec (p : Provider) (keyword : String) (now : ℤ) :
    (∀ e, get_keyword_details_body p keyword now = .error e →
      get_keyword_details p keyword now = .error e) ∧
    (∀ d, get_keyword_details p keyword now = .ok d →
      get_keyword_details_body p keyword now = .ok d) := by
  constructor
  · intro e he
    have h2 := handle_request_error_raises e
    simp only [get_keyword_details, he, h2]
  · intro d hd
    cases hbody : get_keyword_details_body p keyword now with
    | ok d2 =>
      simp only [get_keyword_details, hbody, Except.ok.injEq] at hd
      exact congrArg Except.ok hd
    | error e =>
      have h2 := handle_request_error_raises e
      simp only [get_keyword_details, hbody, h2] at hd
      exact Except.noConfusion hd

/-- Witness for C4: the failing provider's error reaches the caller
unchanged. -/
theorem get_keyword_details_error_spec_witness :
    get_keyword_details failingProvider "bitcoin" 0 = .error .tooManyRequests :=
  (get_keyword_details_error_spec failingProvider "bitcoin" 0).1 .tooManyRequests rfl

/-- C5: the failure classifier sleeps 60 time units for a rate-limit
error and 0 otherwise, and in every case re-raises the very error it was
given: it never returns normally. -/
theorem handle_request_error_spec (error : PyError) :
    (handle_request_error error).2 = .error error ∧
    (handle_request_error error).1 = (if error = .tooManyRequests then 60 else 0) := by
  refine ⟨handle_request_error_raises error, ?_⟩
  simp only [handle_request_error]
  split_ifs <;> rfl

/-- C6: the dedupe step yields a duplicate-free list that never contains
the base keyword and has at most 20 entries, and it is idempotent on its
own output (paired with the empty list and the same base keyword). -/
theorem dedupe_related_spec (top rising : List String) (keyword : String) :
    (dedupe_related top rising keyword).Nodup ∧
    keyword ∉ dedupe_related top rising keyword ∧
    (dedupe_related top rising keyword).length ≤ 20 ∧
    dedupe_related (dedupe_related top rising keyword) [] keyword =
      dedupe_related top rising keyword := by
  refine ⟨dedupe_related_nodup top rising keyword,
    dedupe_related_not_mem top rising keyword,
    dedupe_related_length_le top rising keyword, ?_⟩
  have hnd := dedupe_related_nodup top rising keyword
  have hnm := dedupe_related_not_mem top rising keyword
  have hlen := dedupe_related_length_le top rising keyword
  conv_lhs => rw [dedupe_related]
  rw [List.append_nil, hnd.dedup, if_neg hnm, List.take_of_length_le hlen]

/-- C7: `get_trending_keywords` processes at most the first 20 raw
entries, so its result has at most 20 elements; when the provider
delivers raw entries, the result is exactly the successfully processed
entries of the first 20 (failing entries are silently skipped), and any
entry that processes successfully appears in the (exception-free)
result. -/
theorem get_trending_keywords_batch_spec (p : Provider)
    (region timeframe : String) (now : ℤ) :
    (∀ ks, get_trending_keywords p region timeframe now = .ok ks → ks.length ≤ 20) ∧
    (∀ rows, p.client_init = .ok () → p.trending_searches region = .ok (some rows) →
      get_trending_keywords p region timeframe now =
        .ok ((rows.take 20).filterMap (process_trending_entry p region timeframe now))) ∧
    (∀ rows k, p.client_init = .ok () → p.trending_searches region = .ok (some rows) →
      ∀ row ∈ rows.take 20, process_trending_entry p region timeframe now row = some k →
        ∃ ks, get_trending_keywords p region timeframe now = .ok ks ∧ k ∈ ks) := by
  have hmain : ∀ rows, p.client_init = .ok () →
      p.trending_searches region = .ok (some rows) →
      get_trending_keywords p region timeframe now =
        .ok ((rows.take 20).filterMap (process_trending_entry p region timeframe now)) := by
    intro rows hc ht
    simp only [get_trending_keywords, get_trending_keywords_body, hc, ht]
    by_cases hrows : rows = []
    · subst hrows; simp
    · rw [if_neg hrows]
  refine ⟨?_, hmain, ?_⟩
  · intro ks hks
    unfold get_trending_keywords at hks
    split at hks
    · injection hks with h2
      rw [← h2] at *
      exact get_trending_keywords_body_length_le p region timeframe now _ (by assumption)
    · injection hks with h2
      rw [← h2]
      simp
  · intro rows k hc ht row hrow hproc
    exact ⟨_, hmain rows hc ht, List.mem_filterMap.mpr ⟨row, hrow, hproc⟩⟩

/-- Witness for C7: the one-entry provider instantiates all three
clauses. -/
theorem get_trending_keywords_batch_spec_witness :
    get_trending_keywords okProvider "US" "today" 0 =
      .ok ((["bitcoin"].take 20).filterMap (process_trending_entry okProvider "US" "today" 0)) ∧
    ([exampleTrendingResult] : List TrendKeyword).length ≤ 20 ∧
    ∃ ks, get_trending_keywords okProvider "US" "today" 0 = .ok ks ∧
      exampleTrendingResult ∈ ks :=
  ⟨(get_trending_keywords_batch_spec okProvider "US" "today" 0).2.1 ["bitcoin"] rfl rfl,
   (get_trending_keywords_batch_spec okProvider "US" "today" 0).1 [exampleTrendingResult] rfl,
   (get_trending_keywords_batch_spec okProvider "US" "today" 0).2.2 ["bitcoin"]
     exampleTrendingResult rfl rfl "bitcoin" (by simp) rfl⟩

/-- C8: every successfully constructed `TrendKeyword` satisfies the data
model invariant: valid keyword (non-empty, at most 100 characters, no
markup-control characters), 2-letter uppercase region, non-negative
search volume, growth rate at least -100, and every stored related
keyword passes the same keyword validation rule. -/
theorem trend_keyword_invariant (keyword : String) (search_volume : ℤ)
    (growth_rate : ℚ) (region category : String) (timestamp : ℤ)
    (related_keywords : List String) (tk : TrendKeyword)
    (h : mkTrendKeyword keyword search_volume growth_rate region category
      timestamp related_keywords = .ok tk) :
    isValidKeyword tk.keyword = true ∧
    isValidRegion tk.region = true ∧
    0 ≤ tk.search_volume ∧
    (-100 : ℚ) ≤ tk.growth_rate ∧
    ∀ k ∈ tk.related_keywords, isValidKeyword k = true := by
  unfold mkTrendKeyword at h
  split at h
  · exact Except.noConfusion h
  · split at h
    · exact Except.noConfusion h
    · split at h
      · exact Except.noConfusion h
      · split at h
        · exact Except.noConfusion h
        · split at h
          · injection h with htk
            subst htk
            refine ⟨validate_keyword_ok_valid (by assumption),
              validate_region_ok_valid (by assumption),
              validate_search_volume_ok (by assumption),
              validate_growth_rate_ok (by assumption), ?_⟩
            intro k hk
            simp only [List.mem_filterMap] at hk
            obtain ⟨a, _, ha⟩ := hk
            exact validate_keyword_ok_valid (except_toOption_eq_some ha)
          · exact Except.noConfusion h

/-- Witness for C8: a concrete construction whose invalid related
keyword is dropped. -/
theorem trend_keyword_invariant_witness :
    isValidKeyword exampleTrendKeyword.keyword = true ∧
    isValidRegion exampleTrendKeyword.region = true ∧
    0 ≤ exampleTrendKeyword.search_volume ∧
    (-100 : ℚ) ≤ exampleTrendKeyword.growth_rate ∧
    ∀ k ∈ exampleTrendKeyword.related_keywords, isValidKeyword k = true :=
  trend_keyword_invariant "bitcoin" 0 0 "US" "all" 0 ["crypto", "<bad>"]
    exampleTrendKeyword rfl

/-- C9: under the idealized timing model, two consecutive completed
acquisitions of the access gate are separated by at least
`min_request_interval`, and each acquisition records its completion time
as the new last-request timestamp before returning. -/
theorem rate_limit_spacing (min_request_interval : ℚ) (st : GateState)
    (t1 t2 : ℚ)
    (h : (rate_limit min_request_interval st t1).1 ≤ t2) :
    min_request_interval ≤
      (rate_limit min_request_interval
        (rate_limit min_request_interval st t1).2 t2).1 -
      (rate_limit min_request_interval st t1).1 ∧
    (rate_limit min_request_interval st t1).2.last_request_time =
      (rate_limit min_request_interval st t1).1 ∧
    (rate_limit min_request_interval
        (rate_limit min_request_interval st t1).2 t2).2.last_request_time =
      (rate_limit min_request_interval
        (rate_limit min_request_interval st t1).2 t2).1 := by
  simp only [rate_limit] at *
  split_ifs at * <;> refine ⟨?_, rfl, rfl⟩ <;> simp only at * <;> linarith

/-- Witness for C9: spacing at the default interval on concrete
instants. -/
theorem rate_limit_spacing_witness :
    default_min_request_interval ≤
      (rate_limit default_min_request_interval
        (rate_limit default_min_request_interval ⟨0⟩ (1/2)).2 (6/5)).1 -
      (rate_limit default_min_request_interval ⟨0⟩ (1/2)).1 :=
  (rate_limit_spacing default_min_request_interval ⟨0⟩ (1/2) (6/5)
    (by norm_num [rate_limit, default_min_request_interval])).1

/-- C10: every `TrendKeyword` returned by `get_trending_keywords` has an
empty related-keyword list, because the internal enrichment step
`_get_related_keywords_simple` unconditionally returns the empty list. -/
theorem trending_keywords_have_no_related (p : Provider)
    (region timeframe : String) (now : ℤ) (ks : List TrendKeyword)
    (k : TrendKeyword)
    (hks : get_trending_keywords p region timeframe now = .ok ks)
    (hk : k ∈ ks) :
    k.related_keywords = [] ∧ ∀ kw, get_related_keywords_simple kw = [] := by
  refine ⟨?_, fun kw => rfl⟩
  unfold get_trending_keywords at hks
  split at hks
  · next heq =>
    injection hks with h2
    subst h2
    unfold get_trending_keywords_body at heq
    split at heq
    · exact Except.noConfusion heq
    · split at heq
      · exact Except.noConfusion heq
      · injection heq with h3
        rw [← h3] at hk
        exact absurd hk (List.not_mem_nil k)
      · split at heq
        · injection heq with h3
          rw [← h3] at hk
          exact absurd hk (List.not_mem_nil k)
        · injection heq with h3
          rw [← h3] at hk
          simp only [List.mem_filterMap] at hk
          obtain ⟨row, _, hrow⟩ := hk
          exact process_trending_entry_related_nil hrow
  · injection hks with h2
    rw [← h2] at hk
    exact absurd hk (List.not_mem_nil k)

/-- Witness for C10: the one-entry provider's result record. -/
theorem trending_keywords_have_no_related_witness :
    exampleTrendingResult.related_keywords = [] ∧
    ∀ kw, get_related_keywords_simple kw = [] :=
  trending_keywords_have_no_related okProvider "US" "today" 0
    [exampleTrendingResult] exampleTrendingResult rfl (by simp)
